import Mathlib

/-!
Shallow embedding of the qagent-mcp repository (src/main.py, src/mcp_server.py,
src/qa_agent.py). Python strings are modelled as lists of characters, external
effects (environment variables, the search provider, the browser loader, the
LLM reasoning loop) are passed in as explicit `Except`-valued parameters, and
Python exceptions are modelled as `Except.error` values.
-/

/-- Python text, modelled as a list of characters. -/
abbrev Str := List Char

/-- Embed a Lean string literal as `Str`. -/
def lit (s : String) : Str := s.data

/-- Characters Python `int()` strips before parsing. -/
def pyWhitespace (c : Char) : Bool :=
  c == ' ' || c == '\t' || c == '\n' || c == '\r' || c == '\x0b' || c == '\x0c'

/-- Value of a nonempty all-digit string, `none` otherwise. -/
def decimalValue (s : Str) : Option Nat :=
  if s.isEmpty then none
  else if s.all Char.isDigit then
    some (s.foldl (fun acc c => acc * 10 + (c.toNat - '0'.toNat)) 0)
  else none

/-- Model of Python `int(s)` on strings: optional surrounding whitespace, an
optional sign, then decimal digits; anything else raises `ValueError`
(modelled as `none`). Digit-group underscores are not modelled. -/
def pyInt (s : Str) : Option Int :=
  let t := ((s.dropWhile pyWhitespace).reverse.dropWhile pyWhitespace).reverse
  match t with
  | '+' :: rest => (decimalValue rest).map Int.ofNat
  | '-' :: rest => (decimalValue rest).map (fun n => -(Int.ofNat n))
  | _ => (decimalValue t).map Int.ofNat

/-- src/main.py `get_env_with_fallback`: the environment value for a key
(`none` when unset), a numeric default and a converter. When the variable is
unset, `os.getenv` returns the (non-string) default, which is returned as is;
when set, the converter runs and a `ValueError`/`TypeError` (modelled by the
converter returning `none`) falls back to the default. -/
def get_env_with_fallback {α : Type} (env_value : Option Str) (default : α)
    (converter : Str → Option α) : α :=
  match env_value with
  | none => default
  | some s => (converter s).getD default

/-- The numeric part of the tool-server configuration built in
src/mcp_server.py `ServerClients.__init__`. -/
structure ServerNumericConfig where
  max_results : Int
  max_content_size : Int
  max_scrape_length : Int
deriving DecidableEq, Repr

/-- src/mcp_server.py `ServerClients.__init__`, numeric fields: each value is
`int(os.getenv(KEY, default_string))` with no exception handler, so an
unparseable value raises `ValueError` out of the constructor (module load
fails). -/
def server_clients_init (envMaxResults envMaxContentSize envMaxScrapeLength : Option Str) :
    Except Str ServerNumericConfig :=
  match pyInt (envMaxResults.getD (lit "10")) with
  | none => Except.error (lit "ValueError: invalid literal for int() in MAX_RESULTS")
  | some mr =>
    match pyInt (envMaxContentSize.getD (lit "10000")) with
    | none => Except.error (lit "ValueError: invalid literal for int() in MAX_CONTENT_SIZE")
    | some mcs =>
      match pyInt (envMaxScrapeLength.getD (lit "20000")) with
      | none => Except.error (lit "ValueError: invalid literal for int() in MAX_SCRAPE_LENGTH")
      | some msl => Except.ok ⟨mr, mcs, msl⟩

/-- A loaded tabular catalog: column names and rows of cells, where a cell is
`none` when the CSV had a null/missing value there. -/
structure DataFrame where
  columns : List Str
  rows : List (List (Option Str))
deriving DecidableEq, Repr

/-- The required columns of src/qa_agent.py `load_sites_data`. -/
def required_columns : List Str := [lit "site", lit "domain", lit "description"]

/-- src/qa_agent.py `load_sites_data`: the `missing_columns` list
comprehension. -/
def missing_columns (df : DataFrame) : List Str :=
  required_columns.filter (fun col => !(df.columns.contains col))

/-- src/qa_agent.py `load_sites_data`, starting from the parsed dataframe:
raises `ValueError` when a required column is absent, otherwise returns the
dataframe. -/
def load_sites_data (df : DataFrame) : Except Str DataFrame :=
  if missing_columns df = [] then Except.ok df
  else Except.error (lit "Missing required columns: " ++
    List.intercalate (lit ", ") (missing_columns df))

/-- A chat-history message is a `HumanMessage` or an `AIMessage`
(src/qa_agent.py). -/
inductive Role where
  | user
  | assistant
deriving DecidableEq, Repr

/-- One stored turn of conversation history: role and message content. -/
abbrev Turn := Role × Str

/-- The mutable per-agent state of src/qa_agent.py `DomainQAAgent`:
`chat_history`, and whether the lazy MCP client has been initialized
(`mcp_client is not None`). -/
structure AgentState where
  chat_history : List Turn
  mcp_initialized : Bool
deriving DecidableEq, Repr

/-- src/qa_agent.py `achat`: the context handed to the reasoning loop,
`self.chat_history[-5:] if self.chat_history else []`. -/
def suppliedContext : List Turn → List Turn
  | [] => []
  | h => h.drop (h.length - 5)

/-- src/qa_agent.py `achat`: the default when the loop's response dict has no
"output" key. -/
def fallback_answer : Str := lit "I couldn't process your request."

/-- src/qa_agent.py `DomainQAAgent.achat`. External effects are parameters:
`initialize_mcp` is the outcome of `_initialize_mcp_client` when the client is
not yet initialized (the method no-ops otherwise), and `agent_loop` is the
outcome of `agent_executor.ainvoke` on the supplied context and input, `ok`
carrying the optional "output" entry of the response dict. Any raised
exception is caught and returned as an `Error: `-prefixed string with the
history untouched; on success the user and assistant turns are appended. -/
def achat (initialize_mcp : Except Str Unit)
    (agent_loop : List Turn → Str → Except Str (Option Str))
    (st : AgentState) (user_input : Str) : Str × AgentState :=
  match (if st.mcp_initialized then Except.ok () else initialize_mcp) with
  | Except.error e => (lit "Error: " ++ e, st)
  | Except.ok _ =>
    match agent_loop (suppliedContext st.chat_history) user_input with
    | Except.error e => (lit "Error: " ++ e, { st with mcp_initialized := true })
    | Except.ok output =>
      let answer := output.getD fallback_answer
      (answer,
        { st with
          mcp_initialized := true,
          chat_history := st.chat_history ++
            [(Role.user, user_input), (Role.assistant, answer)] })

/-- src/qa_agent.py `DomainQAAgent.reset_memory`: `self.chat_history.clear()`;
no other field is touched. -/
def reset_memory (st : AgentState) : AgentState :=
  { st with chat_history := [] }

/-- First value registered under a key in an association-list model of the
Python dict `app.state.user_sessions`. -/
def lookupSession {A : Type} : List (Str × A) → Str → Option A
  | [], _ => none
  | (k, v) :: rest, sid => if k = sid then some v else lookupSession rest sid

/-- src/main.py `get_or_create_agent`: when `session_id` is not a key of the
session dict, a fresh agent (`fresh`, modelling `DomainQAAgent(config=...)`) is
inserted under it; the agent stored under `session_id` is returned together
with the updated registry. -/
def get_or_create_agent {A : Type} (sessions : List (Str × A)) (fresh : A)
    (session_id : Str) : A × List (Str × A) :=
  match lookupSession sessions session_id with
  | some agent => (agent, sessions)
  | none => (fresh, sessions ++ [(session_id, fresh)])

/-- One entry of the Tavily `results` list; `.get` on the result dict yields
`none` for a missing key. -/
structure SearchResult where
  title : Option Str
  url : Option Str
  content : Option Str
deriving DecidableEq, Repr

/-- src/mcp_server.py `format_search_results`, body of the loop for the
1-based index `i` and one result. -/
def format_single_result (i : Nat) (result : SearchResult) (max_content_size : Nat) : Str :=
  let title := result.title.getD (lit "No title")
  let url := result.url.getD (lit "No URL")
  let content := result.content.getD (lit "No content available")
  let content :=
    if content.length > max_content_size then content.take max_content_size ++ lit "..."
    else content
  lit "\nResult " ++ lit (Nat.repr i) ++ lit ":\nTitle: " ++ title ++
    lit "\nURL: " ++ url ++ lit "\nContent: " ++ content ++ lit "\n---\n"

/-- src/mcp_server.py `format_search_results`: `enumerate(results, 1)` over
the result list. -/
def format_search_results (results : List SearchResult) (max_content_size : Nat) :
    List Str :=
  results.enum.map (fun p => format_single_result (p.1 + 1) p.2 max_content_size)

/-- The runtime tool-server configuration dict `server_clients.config`
(src/mcp_server.py), fields the tools read. -/
structure ServerConfig where
  max_results : Nat
  search_depth : Str
  max_content_size : Nat
  max_scrape_length : Nat
  enable_search_summarization : Bool
deriving DecidableEq, Repr

/-- Python `x or default` for an optional integer argument: `None` and `0` are
falsy, so both fall back to the default (src/mcp_server.py line 164). -/
def pyOrNat (x : Option Nat) (default : Nat) : Nat :=
  match x with
  | none => default
  | some n => if n = 0 then default else n

/-- Python `x or default` for an optional string argument: `None` and the
empty string are falsy (src/mcp_server.py line 165). -/
def pyOrStr (x : Option Str) (default : Str) : Str :=
  match x with
  | none => default
  | some s => if s = [] then default else s

/-- src/mcp_server.py `search_documentation`, fixed no-results message. -/
def no_results_message : Str :=
  lit "No results found. Try a different search query or check if domains are accessible."

/-- src/mcp_server.py `search_documentation`. External effects are
parameters: `provider` is `tavily_client.search` applied to the query, the
effective result cap, the effective depth and the site list, `ok` carrying
the optional "results" entry of the response dict; `has_summarizer` models
`summarizer_llm is not None`; `summarizer` is the optional secondary LLM call.
Any exception becomes the `❌ Search error: ` string; a missing/empty result
list yields the fixed no-results message; otherwise results are capped,
formatted, joined with newlines, and optionally summarized (summarization
failure falls back to the unsummarized block). -/
def search_documentation (cfg : ServerConfig) (has_summarizer : Bool)
    (provider : Str → Nat → Str → List Str → Except Str (Option (List SearchResult)))
    (summarizer : Str → Except Str Str)
    (query : Str) (sites : List Str)
    (max_results : Option Nat) (depth : Option Str) : Str :=
  let final_max_results := pyOrNat max_results cfg.max_results
  let final_depth := pyOrStr depth cfg.search_depth
  match provider query final_max_results final_depth sites with
  | Except.error e => lit "❌ Search error: " ++ e
  | Except.ok resultsOpt =>
    let results := resultsOpt.getD []
    if results = [] then no_results_message
    else
      let final_result := List.intercalate (lit "\n")
        (format_search_results (results.take final_max_results) cfg.max_content_size)
      if cfg.enable_search_summarization && has_summarizer then
        match summarizer final_result with
        | Except.ok summarized => summarized
        | Except.error _ => final_result
      else final_result

/-- src/mcp_server.py `get_default_tags`. -/
def get_default_tags : List Str :=
  [lit "p", lit "li", lit "div", lit "a", lit "span",
   lit "h1", lit "h2", lit "h3", lit "h4", lit "h5", lit "h6"]

/-- src/mcp_server.py `scrape_website`. External effects are parameters:
`load` is the outcome of `AsyncChromiumLoader([url]).load()` (a list of page
contents), `transform` is `BeautifulSoupTransformer.transform_documents`
applied to the docs and the tag list. A raised exception from either is
caught by the outer handler and becomes the `Web scraping error for {url}`
string; an empty doc list or empty extraction yields a descriptive message;
otherwise the first document's content is truncated at `max_scrape_length`
and wrapped in the fixed template. -/
def scrape_website (url : Str) (tags_to_extract : Option (List Str))
    (load : Except Str (List Str))
    (transform : List Str → List Str → Except Str (List Str))
    (max_scrape_length : Nat) : Str :=
  let tags := tags_to_extract.getD get_default_tags
  match load with
  | Except.error e => lit "Web scraping error for " ++ url ++ lit ": " ++ e
  | Except.ok html_docs =>
    if html_docs = [] then lit "Failed to load content from " ++ url
    else
      match transform html_docs tags with
      | Except.error e => lit "Web scraping error for " ++ url ++ lit ": " ++ e
      | Except.ok docs_transformed =>
        match docs_transformed with
        | [] => lit "No content extracted from " ++ url
        | first :: _ =>
          let content :=
            if first.length > max_scrape_length then
              first.take max_scrape_length ++ lit "\n\n... (content truncated)"
            else first
          lit "\n**Website Scraped:** " ++ url ++ lit "\n**Content Extracted:**\n\n" ++
            content ++ lit "\n\n**Note:** Complete website content for comprehensive analysis.\n"

/-! Theorems. -/

/-- Helper: the missing-columns check is empty exactly when every required
column is present. -/
theorem missing_columns_eq_nil_iff (df : DataFrame) :
    missing_columns df = [] ↔ ∀ c ∈ required_columns, df.columns.contains c = true := by
  unfold missing_columns
  rw [List.filter_eq_nil_iff]
  constructor <;> intro h c hc <;> have := h c hc <;> simp_all

/-- C1 counterexample: with environment MAX_RESULTS set to the unparseable
string "oops", the tool-server configuration load in
`ServerClients.__init__` raises `ValueError` instead of falling back to the
stated default 10, so the claim that invalid numeric values never fail
startup is false for the tool-server configuration. -/
theorem server_init_invalid_numeric_fails :
    server_clients_init (some (lit "oops")) none none
      = Except.error (lit "ValueError: invalid literal for int() in MAX_RESULTS")
  ∧ server_clients_init (some (lit "oops")) none none
      ≠ Except.ok ⟨10, 10000, 20000⟩ := by
  refine ⟨rfl, fun h => ?_⟩
  rw [show server_clients_init (some (lit "oops")) none none
      = Except.error (lit "ValueError: invalid literal for int() in MAX_RESULTS") from rfl] at h
  exact Except.noConfusion h

/-- C1 (amended): in the front-door configuration, `get_env_with_fallback`
returns the default when the variable is unset or its value fails to convert,
and the converted value otherwise, never failing; in the tool-server
configuration, an unparseable MAX_RESULTS value raises out of
`ServerClients.__init__` (startup failure). -/
theorem numeric_env_fallback_front_door_only {α : Type}
    (env_value : Option Str) (default : α) (converter : Str → Option α) :
    (env_value = none → get_env_with_fallback env_value default converter = default)
  ∧ (∀ s, env_value = some s → converter s = none →
      get_env_with_fallback env_value default converter = default)
  ∧ (∀ s v, env_value = some s → converter s = some v →
      get_env_with_fallback env_value default converter = v)
  ∧ (∀ envMCS envMSL s, env_value = some s → pyInt s = none →
      server_clients_init env_value envMCS envMSL
        = Except.error (lit "ValueError: invalid literal for int() in MAX_RESULTS")) := by
  refine ⟨fun h => ?_, fun s hs hc => ?_, fun s v hs hc => ?_, fun envMCS envMSL s hs hp => ?_⟩
  · simp [get_env_with_fallback, h]
  · simp [get_env_with_fallback, hs, hc]
  · simp [get_env_with_fallback, hs, hc]
  · subst hs
    simp [server_clients_init, hp]

/-- C1 witness: a concrete invalid value falls back in the front door, a
concrete valid value converts, and the same invalid value fails the
tool-server configuration load. -/
theorem numeric_env_fallback_front_door_only_witness :
    get_env_with_fallback (some (lit "oops")) (10 : Int) pyInt = 10
  ∧ get_env_with_fallback (some (lit "25")) (10 : Int) pyInt = 25
  ∧ server_clients_init (some (lit "bad")) none none
      = Except.error (lit "ValueError: invalid literal for int() in MAX_RESULTS") := by
  refine ⟨?_, ?_, ?_⟩
  · exact (numeric_env_fallback_front_door_only (some (lit "oops")) 10 pyInt).2.1
      (lit "oops") rfl (by decide)
  · exact (numeric_env_fallback_front_door_only (some (lit "25")) 10 pyInt).2.2.1
      (lit "25") 25 rfl (by decide)
  · exact (numeric_env_fallback_front_door_only (some (lit "bad")) (10 : Int) pyInt).2.2.2
      none none (lit "bad") rfl (by decide)

/-- C2 counterexample: a catalog whose single row has a null `site` cell (all
required columns present) loads successfully, so the claim that a null value
in a required column makes the load fail is false. -/
theorem load_sites_null_row_loads_ok :
    load_sites_data ⟨[lit "site", lit "domain", lit "description"],
        [[none, some (lit "langchain"), some (lit "LLM framework docs")]]⟩
      = Except.ok ⟨[lit "site", lit "domain", lit "description"],
        [[none, some (lit "langchain"), some (lit "LLM framework docs")]]⟩ := rfl

/-- C2 (amended): `load_sites_data` returns the catalog exactly when every
required column (site, domain, description) is present, and raises when one
is absent; row contents, null cells included, are never checked. -/
theorem load_sites_data_fails_iff_missing_columns (df : DataFrame) :
    (load_sites_data df = Except.ok df ↔ ∀ c ∈ required_columns, df.columns.contains c = true)
  ∧ (missing_columns df ≠ [] → ∃ msg, load_sites_data df = Except.error msg) := by
  constructor
  · rw [← missing_columns_eq_nil_iff]
    unfold load_sites_data
    by_cases h : missing_columns df = [] <;> simp [h]
  · intro h
    unfold load_sites_data
    simp [h]

/-- C2 witness: a catalog with all three required columns loads, and one with
only the `site` column fails. -/
theorem load_sites_data_fails_iff_missing_columns_witness :
    load_sites_data ⟨[lit "site", lit "domain", lit "description"], []⟩
      = Except.ok ⟨[lit "site", lit "domain", lit "description"], []⟩
  ∧ ∃ msg, load_sites_data ⟨[lit "site"], []⟩ = Except.error msg := by
  constructor
  · exact (load_sites_data_fails_iff_missing_columns
      ⟨[lit "site", lit "domain", lit "description"], []⟩).1.mpr (by decide)
  · exact (load_sites_data_fails_iff_missing_columns ⟨[lit "site"], []⟩).2 (by decide)

/-- C3: any exception in `achat` — from MCP-client initialization or from the
reasoning loop — yields an `Error: `-prefixed string instead of raising, and
the stored conversation history is exactly unchanged on those paths. -/
theorem achat_exception_returns_error_string
    (initialize_mcp : Except Str Unit)
    (agent_loop : List Turn → Str → Except Str (Option Str))
    (st : AgentState) (user_input : Str) :
    (∀ e, st.mcp_initialized = false → initialize_mcp = Except.error e →
      achat initialize_mcp agent_loop st user_input = (lit "Error: " ++ e, st))
  ∧ (∀ e, (st.mcp_initialized = true ∨ initialize_mcp = Except.ok ()) →
      agent_loop (suppliedContext st.chat_history) user_input = Except.error e →
        (achat initialize_mcp agent_loop st user_input).1 = lit "Error: " ++ e
      ∧ (achat initialize_mcp agent_loop st user_input).2.chat_history
          = st.chat_history) := by
  constructor
  · intro e hini hmcp
    simp [achat, hini, hmcp]
  · intro e hcase hloop
    rcases hcase with h | h
    · constructor <;> simp [achat, h, hloop]
    · cases hm : st.mcp_initialized
      · constructor <;> simp [achat, hm, h, hloop]
      · constructor <;> simp [achat, hm, hloop]

/-- C3 witness: a failed initialization returns the error string and leaves
the one-turn history in place. -/
theorem achat_exception_returns_error_string_witness :
    achat (Except.error (lit "MCP down")) (fun _ _ => Except.ok none)
        ⟨[(Role.user, lit "hi")], false⟩ (lit "q")
      = (lit "Error: MCP down", ⟨[(Role.user, lit "hi")], false⟩) :=
  (achat_exception_returns_error_string (Except.error (lit "MCP down"))
    (fun _ _ => Except.ok none) ⟨[(Role.user, lit "hi")], false⟩ (lit "q")).1
    (lit "MCP down") rfl rfl

/-- C4: the reasoning loop is supplied exactly the most recent 5 stored turns
(all of them when fewer than 5 exist) — the supplied context is a suffix of
the untruncated stored history — and a successful call appends exactly the
user and assistant turns to the stored history, also when the answer is the
fallback placeholder. -/
theorem achat_context_window_and_history_append
    (initialize_mcp : Except Str Unit)
    (agent_loop : List Turn → Str → Except Str (Option Str))
    (st : AgentState) (user_input : Str) :
    suppliedContext st.chat_history
      = st.chat_history.drop (st.chat_history.length - 5)
  ∧ (suppliedContext st.chat_history).length = min st.chat_history.length 5
  ∧ (∃ older, st.chat_history = older ++ suppliedContext st.chat_history)
  ∧ achat initialize_mcp agent_loop st user_input
      = achat initialize_mcp
          (fun _ _ => agent_loop (suppliedContext st.chat_history) user_input)
          st user_input
  ∧ (∀ output, (st.mcp_initialized = true ∨ initialize_mcp = Except.ok ()) →
      agent_loop (suppliedContext st.chat_history) user_input = Except.ok output →
        achat initialize_mcp agent_loop st user_input
          = (output.getD fallback_answer,
             { st with
               mcp_initialized := true,
               chat_history := st.chat_history ++
                 [(Role.user, user_input),
                  (Role.assistant, output.getD fallback_answer)] })) := by
  have hdrop : suppliedContext st.chat_history
      = st.chat_history.drop (st.chat_history.length - 5) := by
    cases st.chat_history with
    | nil => rfl
    | cons a t => rfl
  refine ⟨hdrop, ?_, ?_, rfl, ?_⟩
  · rw [hdrop, List.length_drop]
    omega
  · exact ⟨st.chat_history.take (st.chat_history.length - 5),
      by rw [hdrop, List.take_append_drop]⟩
  · intro output hcase hloop
    rcases hcase with h | h
    · simp [achat, h, hloop]
    · cases hm : st.mcp_initialized
      · simp [achat, hm, h, hloop]
      · simp [achat, hm, hloop]

/-- C4 witness: on a 7-turn history the loop receives the last 5 turns, and a
successful call whose response dict lacks "output" appends the user turn and
the fallback placeholder answer to the full stored history. -/
theorem achat_context_window_and_history_append_witness :
    suppliedContext [(Role.user, lit "a"), (Role.assistant, lit "b"),
        (Role.user, lit "c"), (Role.assistant, lit "d"), (Role.user, lit "e"),
        (Role.assistant, lit "f"), (Role.user, lit "g")]
      = [(Role.user, lit "c"), (Role.assistant, lit "d"), (Role.user, lit "e"),
         (Role.assistant, lit "f"), (Role.user, lit "g")]
  ∧ achat (Except.ok ()) (fun _ _ => Except.ok none)
        ⟨[(Role.user, lit "a"), (Role.assistant, lit "b"), (Role.user, lit "c"),
          (Role.assistant, lit "d"), (Role.user, lit "e"), (Role.assistant, lit "f"),
          (Role.user, lit "g")], false⟩ (lit "q")
      = (fallback_answer,
         ⟨[(Role.user, lit "a"), (Role.assistant, lit "b"), (Role.user, lit "c"),
           (Role.assistant, lit "d"), (Role.user, lit "e"), (Role.assistant, lit "f"),
           (Role.user, lit "g"), (Role.user, lit "q"),
           (Role.assistant, fallback_answer)], true⟩) := by
  constructor
  · have h := (achat_context_window_and_history_append (Except.ok ())
      (fun _ _ => Except.ok none)
      ⟨[(Role.user, lit "a"), (Role.assistant, lit "b"), (Role.user, lit "c"),
        (Role.assistant, lit "d"), (Role.user, lit "e"), (Role.assistant, lit "f"),
        (Role.user, lit "g")], false⟩ (lit "q")).1
    simpa using h
  · have h := (achat_context_window_and_history_append (Except.ok ())
      (fun _ _ => Except.ok none)
      ⟨[(Role.user, lit "a"), (Role.assistant, lit "b"), (Role.user, lit "c"),
        (Role.assistant, lit "d"), (Role.user, lit "e"), (Role.assistant, lit "f"),
        (Role.user, lit "g")], false⟩ (lit "q")).2.2.2.2 none (Or.inr rfl) rfl
    simpa using h

/-- C5: content strictly longer than the configured limit is truncated to
exactly the limit and gets the ellipsis marker, content at or below the limit
is included unchanged, and the formatted output keeps only the first
`final_max` results (results beyond the cap are dropped). -/
theorem format_search_results_truncation_and_drop
    (results : List SearchResult) (final_max max_content_size : Nat) :
    (format_search_results (results.take final_max) max_content_size).length
      = min final_max results.length
  ∧ (∀ i r c, r.content = some c → c.length > max_content_size →
      format_single_result i r max_content_size
        = lit "\nResult " ++ lit (Nat.repr i) ++ lit ":\nTitle: " ++
            r.title.getD (lit "No title") ++ lit "\nURL: " ++
            r.url.getD (lit "No URL") ++ lit "\nContent: " ++
            (c.take max_content_size ++ lit "...") ++ lit "\n---\n"
      ∧ (c.take max_content_size).length = max_content_size)
  ∧ (∀ i r c, r.content = some c → c.length ≤ max_content_size →
      format_single_result i r max_content_size
        = lit "\nResult " ++ lit (Nat.repr i) ++ lit ":\nTitle: " ++
            r.title.getD (lit "No title") ++ lit "\nURL: " ++
            r.url.getD (lit "No URL") ++ lit "\nContent: " ++
            c ++ lit "\n---\n") := by
  refine ⟨?_, fun i r c hc hlen => ?_, fun i r c hc hlen => ?_⟩
  · simp [format_search_results, List.enum_length, List.length_take]
  · unfold format_single_result
    rw [hc]
    simp only [Option.getD_some]
    rw [if_pos hlen]
    exact ⟨rfl, by rw [List.length_take]; omega⟩
  · unfold format_single_result
    rw [hc]
    simp only [Option.getD_some]
    rw [if_neg (by omega)]

/-- C5 witness: with limit 3 and cap 2, a 6-character content is cut to
exactly 3 characters plus the marker, a 2-character content passes through
unchanged, and only 2 of the 3 results are formatted. -/
theorem format_search_results_truncation_and_drop_witness :
    (format_search_results
        ([⟨none, none, some (lit "abcdef")⟩, ⟨none, none, some (lit "xy")⟩,
          ⟨none, none, some (lit "zz")⟩].take 2) 3).length = 2
  ∧ format_single_result 1 ⟨none, none, some (lit "abcdef")⟩ 3
      = lit "\nResult " ++ lit (Nat.repr 1) ++ lit ":\nTitle: " ++ lit "No title" ++
          lit "\nURL: " ++ lit "No URL" ++ lit "\nContent: " ++
          ((lit "abcdef").take 3 ++ lit "...") ++ lit "\n---\n"
  ∧ ((lit "abcdef").take 3).length = 3
  ∧ format_single_result 2 ⟨none, none, some (lit "xy")⟩ 3
      = lit "\nResult " ++ lit (Nat.repr 2) ++ lit ":\nTitle: " ++ lit "No title" ++
          lit "\nURL: " ++ lit "No URL" ++ lit "\nContent: " ++
          lit "xy" ++ lit "\n---\n" := by
  have h := format_search_results_truncation_and_drop
    [⟨none, none, some (lit "abcdef")⟩, ⟨none, none, some (lit "xy")⟩,
     ⟨none, none, some (lit "zz")⟩] 2 3
  refine ⟨by simpa using h.1, ?_, ?_, ?_⟩
  · exact (h.2.1 1 ⟨none, none, some (lit "abcdef")⟩ (lit "abcdef") rfl (by decide)).1
  · exact (h.2.1 1 ⟨none, none, some (lit "abcdef")⟩ (lit "abcdef") rfl (by decide)).2
  · exact h.2.2 2 ⟨none, none, some (lit "xy")⟩ (lit "xy") rfl (by decide)

/-- C6: `scrape_website` is a total text-valued function whose result always
contains the requested URL; each failure branch (raised load error, empty
document list, raised transform error, empty extraction) yields its
descriptive message, and the success branch wraps the (possibly truncated)
content in the fixed template. -/
theorem scrape_website_always_text_with_url
    (url : Str) (tags_to_extract : Option (List Str))
    (load : Except Str (List Str))
    (transform : List Str → List Str → Except Str (List Str))
    (max_scrape_length : Nat) :
    (∃ l r, scrape_website url tags_to_extract load transform max_scrape_length
        = l ++ url ++ r)
  ∧ (∀ e, load = Except.error e →
      scrape_website url tags_to_extract load transform max_scrape_length
        = lit "Web scraping error for " ++ url ++ (lit ": " ++ e))
  ∧ (load = Except.ok [] →
      scrape_website url tags_to_extract load transform max_scrape_length
        = lit "Failed to load content from " ++ url)
  ∧ (∀ docs e, load = Except.ok docs → docs ≠ [] →
      transform docs (tags_to_extract.getD get_default_tags) = Except.error e →
      scrape_website url tags_to_extract load transform max_scrape_length
        = lit "Web scraping error for " ++ url ++ (lit ": " ++ e))
  ∧ (∀ docs, load = Except.ok docs → docs ≠ [] →
      transform docs (tags_to_extract.getD get_default_tags) = Except.ok [] →
      scrape_website url tags_to_extract load transform max_scrape_length
        = lit "No content extracted from " ++ url)
  ∧ (∀ docs first rest, load = Except.ok docs → docs ≠ [] →
      transform docs (tags_to_extract.getD get_default_tags)
        = Except.ok (first :: rest) →
      scrape_website url tags_to_extract load transform max_scrape_length
        = lit "\n**Website Scraped:** " ++ url ++
            (lit "\n**Content Extracted:**\n\n" ++
             ((if first.length > max_scrape_length then
                 first.take max_scrape_length ++ lit "\n\n... (content truncated)"
               else first) ++
              lit "\n\n**Note:** Complete website content for comprehensive analysis.\n"))) := by
  have herr : ∀ e, load = Except.error e →
      scrape_website url tags_to_extract load transform max_scrape_length
        = lit "Web scraping error for " ++ url ++ (lit ": " ++ e) := by
    intro e h
    simp [scrape_website, h, List.append_assoc]
  have hnil : load = Except.ok [] →
      scrape_website url tags_to_extract load transform max_scrape_length
        = lit "Failed to load content from " ++ url := by
    intro h
    simp [scrape_website, h]
  have hterr : ∀ docs e, load = Except.ok docs → docs ≠ [] →
      transform docs (tags_to_extract.getD get_default_tags) = Except.error e →
      scrape_website url tags_to_extract load transform max_scrape_length
        = lit "Web scraping error for " ++ url ++ (lit ": " ++ e) := by
    intro docs e h hd ht
    simp [scrape_website, h, hd, ht, List.append_assoc]
  have hempty : ∀ docs, load = Except.ok docs → docs ≠ [] →
      transform docs (tags_to_extract.getD get_default_tags) = Except.ok [] →
      scrape_website url tags_to_extract load transform max_scrape_length
        = lit "No content extracted from " ++ url := by
    intro docs h hd ht
    simp [scrape_website, h, hd, ht]
  have hok : ∀ docs first rest, load = Except.ok docs → docs ≠ [] →
      transform docs (tags_to_extract.getD get_default_tags)
        = Except.ok (first :: rest) →
      scrape_website url tags_to_extract load transform max_scrape_length
        = lit "\n**Website Scraped:** " ++ url ++
            (lit "\n**Content Extracted:**\n\n" ++
             ((if first.length > max_scrape_length then
                 first.take max_scrape_length ++ lit "\n\n... (content truncated)"
               else first) ++
              lit "\n\n**Note:** Complete website content for comprehensive analysis.\n")) := by
    intro docs first rest h hd ht
    simp [scrape_website, h, hd, ht, List.append_assoc]
  refine ⟨?_, herr, hnil, hterr, hempty, hok⟩
  rcases hload : load with e | docs
  · rw [← hload]
    exact ⟨lit "Web scraping error for ", lit ": " ++ e, herr e hload⟩
  · rw [← hload]
    by_cases hd : docs = []
    · subst hd
      exact ⟨lit "Failed to load content from ", [], by simpa using hnil hload⟩
    · rcases ht : transform docs (tags_to_extract.getD get_default_tags) with e | dt
      · exact ⟨lit "Web scraping error for ", lit ": " ++ e, hterr docs e hload hd ht⟩
      · cases dt with
        | nil => exact ⟨lit "No content extracted from ", [],
            by simpa using hempty docs hload hd ht⟩
        | cons first rest =>
            exact ⟨lit "\n**Website Scraped:** ", _, hok docs first rest hload hd ht⟩

/-- C6 witness: a raised load error for a concrete URL yields the descriptive
text with the URL, and a successful scrape yields the fixed template. -/
theorem scrape_website_always_text_with_url_witness :
    scrape_website (lit "http://x") none (Except.error (lit "boom"))
        (fun _ _ => Except.ok []) 100
      = lit "Web scraping error for " ++ lit "http://x" ++ (lit ": " ++ lit "boom")
  ∧ scrape_website (lit "http://x") none (Except.ok [lit "page-html"])
        (fun _ _ => Except.ok [lit "hello"]) 100
      = lit "\n**Website Scraped:** " ++ lit "http://x" ++
          (lit "\n**Content Extracted:**\n\n" ++
           (lit "hello" ++
            lit "\n\n**Note:** Complete website content for comprehensive analysis.\n")) := by
  constructor
  · exact (scrape_website_always_text_with_url (lit "http://x") none
      (Except.error (lit "boom")) (fun _ _ => Except.ok []) 100).2.1 (lit "boom") rfl
  · have h := (scrape_website_always_text_with_url (lit "http://x") none
      (Except.ok [lit "page-html"]) (fun _ _ => Except.ok [lit "hello"]) 100).2.2.2.2.2
      [lit "page-html"] (lit "hello") [] rfl (by decide) rfl
    simpa using h

/-- C7: when the provider call returns an empty result list, the tool returns
the fixed no-results message verbatim, not an error and not empty output. -/
theorem search_documentation_empty_results_message
    (cfg : ServerConfig) (has_summarizer : Bool)
    (provider : Str → Nat → Str → List Str → Except Str (Option (List SearchResult)))
    (summarizer : Str → Except Str Str)
    (query : Str) (sites : List Str)
    (max_results : Option Nat) (depth : Option Str)
    (h : provider query (pyOrNat max_results cfg.max_results)
        (pyOrStr depth cfg.search_depth) sites = Except.ok (some [])) :
    search_documentation cfg has_summarizer provider summarizer query sites
        max_results depth
      = no_results_message
  ∧ no_results_message
      = lit "No results found. Try a different search query or check if domains are accessible." := by
  exact ⟨by simp [search_documentation, h], rfl⟩

/-- C7 witness: a provider that returns zero results makes the tool return
the fixed no-results message. -/
theorem search_documentation_empty_results_message_witness :
    search_documentation ⟨10, lit "basic", 10000, 20000, false⟩ false
        (fun _ _ _ _ => Except.ok (some [])) (fun _ => Except.error [])
        (lit "q") [lit "docs.langchain.com"] none none
      = no_results_message :=
  (search_documentation_empty_results_message ⟨10, lit "basic", 10000, 20000, false⟩
    false (fun _ _ _ _ => Except.ok (some [])) (fun _ => Except.error [])
    (lit "q") [lit "docs.langchain.com"] none none rfl).1

/-- C8: `reset_memory` is idempotent, empties the stored history, leaves the
other agent state untouched, and the next chat call's supplied context after
a reset is empty. -/
theorem reset_memory_idempotent_and_clears (st : AgentState) :
    reset_memory (reset_memory st) = reset_memory st
  ∧ (reset_memory st).chat_history = []
  ∧ suppliedContext (reset_memory st).chat_history = []
  ∧ (reset_memory st).mcp_initialized = st.mcp_initialized :=
  ⟨rfl, rfl, rfl, rfl⟩

/-- C9: a session token already in the registry gets back exactly the
registered agent with the registry unchanged (the fresh agent is not used);
only an unknown token constructs and registers a new agent. -/
theorem get_or_create_agent_registry_behavior {A : Type}
    (sessions : List (Str × A)) (fresh : A) (session_id : Str) :
    (∀ agent, lookupSession sessions session_id = some agent →
      get_or_create_agent sessions fresh session_id = (agent, sessions))
  ∧ (lookupSession sessions session_id = none →
      get_or_create_agent sessions fresh session_id
        = (fresh, sessions ++ [(session_id, fresh)])) := by
  constructor
  · intro agent h
    simp [get_or_create_agent, h]
  · intro h
    simp [get_or_create_agent, h]

/-- C9 witness: a hit on a registered token returns the stored agent and the
unchanged registry for any fresh agent; a miss appends the fresh agent. -/
theorem get_or_create_agent_registry_behavior_witness :
    get_or_create_agent [(lit "s1", 7)] 9 (lit "s1") = (7, [(lit "s1", 7)])
  ∧ get_or_create_agent [(lit "s1", 7)] 9 (lit "s2")
      = (9, [(lit "s1", 7), (lit "s2", 9)]) := by
  constructor
  · exact (get_or_create_agent_registry_behavior [(lit "s1", 7)] 9 (lit "s1")).1
      7 (by decide)
  · have h := (get_or_create_agent_registry_behavior [(lit "s1", 7)] 9 (lit "s2")).2
      (by decide)
    simpa using h

/-- C10: passing `max_results = 0` makes the tool behave exactly as if the
argument were absent — the effective cap is the configured default because
Python `or` treats 0 as falsy — and an empty-string depth likewise falls back
to the configured default depth. -/
theorem search_documentation_zero_and_empty_fallback
    (cfg : ServerConfig) (has_summarizer : Bool)
    (provider : Str → Nat → Str → List Str → Except Str (Option (List SearchResult)))
    (summarizer : Str → Except Str Str)
    (query : Str) (sites : List Str)
    (max_results : Option Nat) (depth : Option Str) :
    pyOrNat (some 0) cfg.max_results = cfg.max_results
  ∧ pyOrStr (some []) cfg.search_depth = cfg.search_depth
  ∧ search_documentation cfg has_summarizer provider summarizer query sites
        (some 0) depth
      = search_documentation cfg has_summarizer provider summarizer query sites
        none depth
  ∧ search_documentation cfg has_summarizer provider summarizer query sites
        max_results (some [])
      = search_documentation cfg has_summarizer provider summarizer query sites
        max_results none :=
  ⟨rfl, rfl, rfl, rfl⟩
